import Mathlib

/-!
Verification of the discovery / similarity-graph core of the research-map
backend (`backend/tavily_mapper.py` and `backend/main.py`).

The Python code is shallowly embedded: dictionaries become structures,
Python `float` arithmetic is modelled exactly over `ℚ`, Python sets built
from lists become `List.toFinset` (or order-preserving `List.dedup` where
the code materialises a set back into a list — CPython's set iteration
order is unspecified; no verified property depends on that order), and
Python's builtin `hash` (process-randomised) is an explicit function
parameter `pyHash`.  String operations are modelled at ASCII level, which
covers every string literal appearing in the code.
-/

namespace ResearchMap

/-!
The string primitives below re-implement, with plain structural recursion
over `List Char` (so that they evaluate by kernel reduction), exactly the
Python string operations the source uses: `in` (substring test),
`.lower()`, `.strip()`, `.split()` (whitespace), `.split(sep)`,
`.replace(c, c')` (single-character patterns, the only ones occurring),
`.title()`, and `re.findall(r'\b\w{3,}\b', ...)`.  All strings involved
are ASCII.
-/

/-- Tests whether `needle` starts `hay`. -/
def listIsPre : List Char → List Char → Bool
  | [], _ => true
  | _ :: _, [] => false
  | a :: as, b :: bs => a == b && listIsPre as bs

/-- Tests whether `needle` occurs as a contiguous sublist of `hay`. -/
def listContains (hay needle : List Char) : Bool :=
  match hay with
  | [] => needle.isEmpty
  | _ :: t => listIsPre needle hay || listContains t needle

/-- Python `needle in haystack` substring test. -/
def strContains (haystack needle : String) : Bool :=
  listContains haystack.data needle.data

/-- Python `int(q)` on a float: truncation toward zero. -/
def pyInt (q : ℚ) : ℤ :=
  if 0 ≤ q then ⌊q⌋ else -⌊-q⌋

/-- Python `round(q, 1)`: round to one decimal place (modelled with
round-half-up; every verified bound is insensitive to the half-way
convention CPython uses on floats). -/
def pyRound1 (q : ℚ) : ℚ :=
  (round (q * 10) : ℚ) / 10

/-- Python `str.lower()` (ASCII). -/
def pyLower (s : String) : String :=
  ⟨s.data.map Char.toLower⟩

/-- Python `str.strip()`: drop leading and trailing whitespace. -/
def pyStrip (s : String) : String :=
  ⟨((s.data.dropWhile Char.isWhitespace).reverse.dropWhile Char.isWhitespace).reverse⟩

/-- Python `str.replace(a, b)` for single-character `a`, `b` (the only
shapes of `replace` in the source). -/
def pyReplaceChar (a b : Char) (s : String) : String :=
  ⟨s.data.map (fun c => if c == a then b else c)⟩

/-- Python `str.title()` (ASCII): uppercase the first letter of each
maximal run of letters, lowercase the rest. -/
def pyTitleGo : Bool → List Char → List Char
  | _, [] => []
  | prevAlpha, c :: cs =>
    (if c.isAlpha then (if prevAlpha then c.toLower else c.toUpper) else c) ::
      pyTitleGo c.isAlpha cs

/-- Python `str.title()` on a string. -/
def pyTitle (s : String) : String :=
  ⟨pyTitleGo false s.data⟩

/-- Maximal runs of characters satisfying `p` (accumulator holds the
current run, reversed). -/
def runsAux (p : Char → Bool) : List Char → List Char → List String
  | [], acc => if acc.isEmpty then [] else [⟨acc.reverse⟩]
  | c :: cs, acc =>
    if p c then runsAux p cs (c :: acc)
    else if acc.isEmpty then runsAux p cs []
    else ⟨acc.reverse⟩ :: runsAux p cs []

/-- Maximal runs of characters satisfying `p` in `s`. -/
def charRuns (p : Char → Bool) (s : String) : List String :=
  runsAux p s.data []

/-- Python `str.split()` with no argument: maximal runs of
non-whitespace, empties dropped. -/
def pySplitWs (s : String) : List String :=
  charRuns (fun c => !c.isWhitespace) s

/-- Tokens of `re.findall(r'\b\w{3,}\b', s)`: maximal runs of word
characters (`[A-Za-z0-9_]`) of length at least 3. -/
def wordTokens (s : String) : List String :=
  (charRuns (fun c => c.isAlphanum || c == '_') s).filter (fun t => t.length ≥ 3)

/-- Python `str.split(sep)` worker, fuelled to keep the recursion
structural (each step consumes at least one character, so `hay.length`
fuel is enough). -/
def splitOnAux (sep : List Char) : ℕ → List Char → List Char → List (List Char)
  | 0, l, acc => [acc.reverse ++ l]
  | fuel + 1, l, acc =>
    match l with
    | [] => [acc.reverse]
    | c :: t =>
      if listIsPre sep l then acc.reverse :: splitOnAux sep fuel (l.drop sep.length) []
      else splitOnAux sep fuel t (c :: acc)

/-- Python `str.split(sep)` for nonempty `sep`. -/
def pySplitOn (s sep : String) : List String :=
  if sep.data.isEmpty then [s]
  else (splitOnAux sep.data (s.data.length + 1) s.data []).map (fun l => ⟨l⟩)

/-- Join a list of strings with a separator (used to undo a split). -/
def joinSep (sep : String) : List String → String
  | [] => ""
  | [x] => x
  | x :: xs => x ++ sep ++ joinSep sep xs

/-- Python `f"{n:04d}"` for `n : ℕ`: decimal, left-padded with zeros to
width 4. -/
def pad4 (n : ℕ) : String :=
  let s := toString n
  ⟨List.replicate (4 - s.length) '0'⟩ ++ s

/-- The `path` component returned by `urllib.parse.urlparse` (for the URL
shapes the crawler produces): drop the fragment and the query, then, if a
`"://"` scheme separator is present, the path starts at the first `'/'`
after the authority; with no scheme the whole remainder is the path. -/
def urlparsePath (url : String) : String :=
  let noFrag := (pySplitOn url "#").headD ""
  let noQuery := (pySplitOn noFrag "?").headD ""
  match pySplitOn noQuery "://" with
  | [] => ""
  | [_] => noQuery
  | _ :: rest =>
    let afterScheme := joinSep "://" rest
    ⟨afterScheme.data.dropWhile (fun c => !(c == '/'))⟩

/-- A paper record as passed around the pipeline (the pydantic `Paper`
model of `main.py` together with the `discovery_method` tag the mapper
dictionaries carry; search-derived papers leave the tag empty). -/
structure Paper where
  id : ℤ
  title : String
  authors : List String
  venue : String
  year : ℤ
  citations : ℤ
  credibility : ℚ
  abstract : String
  keywords : List String
  url : String
  discovery_method : String
  deriving DecidableEq, Repr

/-- A heuristic connection record emitted by
`TavilyMapper._generate_paper_connections`. -/
structure Connection where
  source : ℤ
  target : ℤ
  similarity : ℚ
  connection_type : String
  shared_keywords : List String
  venue_connection : Bool
  deriving DecidableEq, Repr

/-- Embeds `TavilyMapper._calculate_paper_similarity`: the five-signal weighted
similarity score. -/
def calculate_paper_similarity (paper1 paper2 : Paper) (_topic : String) : ℚ :=
  let keywords1 := paper1.keywords.toFinset
  let keywords2 := paper2.keywords.toFinset
  let keyword_overlap := (keywords1 ∩ keywords2).card
  let keyword_similarity : ℚ := (keyword_overlap : ℚ) / ((max (keywords1 ∪ keywords2).card 1 : ℕ) : ℚ)
  let authors1 := paper1.authors.toFinset
  let authors2 := paper2.authors.toFinset
  let author_overlap := (authors1 ∩ authors2).card
  let author_similarity : ℚ := (author_overlap : ℚ) / ((max (authors1 ∪ authors2).card 1 : ℕ) : ℚ)
  let venue_similarity : ℚ := if paper1.venue = paper2.venue then 1.0 else 0.0
  let year_diff : ℕ := (paper1.year - paper2.year).natAbs
  let year_similarity : ℚ := max 0 (1 - (year_diff : ℚ) / 5)
  let title1_words := (pySplitWs (pyLower paper1.title)).toFinset
  let title2_words := (pySplitWs (pyLower paper2.title)).toFinset
  let title_overlap := (title1_words ∩ title2_words).card
  let title_similarity : ℚ := (title_overlap : ℚ) / ((max (title1_words ∪ title2_words).card 1 : ℕ) : ℚ)
  keyword_similarity * 0.4 +
  author_similarity * 0.2 +
  venue_similarity * 0.1 +
  year_similarity * 0.1 +
  title_similarity * 0.2

/-- The keyword set of a paper, as the scorer builds it (`set(keywords)`). -/
def keywordSet (p : Paper) : Finset String := p.keywords.toFinset

/-- The author set of a paper, as the scorer builds it (`set(authors)`). -/
def authorSet (p : Paper) : Finset String := p.authors.toFinset

/-- The title token set of a paper: lower-cased, whitespace-split
(`title.lower().split()`). -/
def titleTokenSet (p : Paper) : Finset String :=
  (pySplitWs (pyLower p.title)).toFinset

/-- Modelled from the spec: Jaccard overlap of two finite sets, `0` when
the union is empty. -/
def specJaccard (s t : Finset String) : ℚ :=
  if s ∪ t = ∅ then 0 else ((s ∩ t).card : ℚ) / (((s ∪ t).card : ℕ) : ℚ)

/-- Modelled from the spec: the year-proximity signal
`max(0, 1 - |y1 - y2| / 5)`. -/
def specYearTerm (y1 y2 : ℤ) : ℚ :=
  max 0 (1 - ((y1 - y2).natAbs : ℚ) / 5)

/-- Embeds `TavilyMapper._determine_connection_type`: classify a scored pair. -/
def determine_connection_type (paper1 paper2 : Paper) (similarity : ℚ) : String :=
  if similarity > 0.7 then "Strong_Similarity"
  else if similarity > 0.5 then "Moderate_Similarity"
  else if paper1.venue = paper2.venue then "Same_Venue"
  else if paper1.authors.any (fun author => paper2.authors.contains author) then "Shared_Author"
  else "Weak_Similarity"

/-- Embeds `TavilyMapper._find_shared_keywords`: `list(set(k1) & set(k2))`,
modelled in first-occurrence order. -/
def find_shared_keywords (paper1 paper2 : Paper) : List String :=
  paper1.keywords.dedup.filter (fun k => paper2.keywords.contains k)

/-- Embeds `TavilyMapper._generate_paper_connections`: all ordered pairs `i < j`
over list order, thresholded at similarity `> 0.3`. -/
def generate_paper_connections (papers : List Paper) (topic : String) : List Connection :=
  match papers with
  | [] => []
  | paper1 :: rest =>
    (rest.filterMap (fun paper2 =>
      if calculate_paper_similarity paper1 paper2 topic > 0.3 then
        some { source := paper1.id
               target := paper2.id
               similarity := calculate_paper_similarity paper1 paper2 topic
               connection_type :=
                 determine_connection_type paper1 paper2
                   (calculate_paper_similarity paper1 paper2 topic)
               shared_keywords := find_shared_keywords paper1 paper2
               venue_connection := decide (paper1.venue = paper2.venue) }
      else none)) ++ generate_paper_connections rest topic

/-- Embeds `TavilyMapper._extract_title_from_url`. -/
def extract_title_from_url (url : String) : String :=
  if strContains url "/abs/" then
    "ArXiv Paper " ++ (pySplitOn url "/abs/").getLastD ""
  else if strContains url "/paper/" then
    "Research Paper " ++ ⟨((pySplitOn url "/paper/").getLastD "").data.take 20⟩
  else
    let path := urlparsePath url
    let title := pyReplaceChar '_' ' ' (pyReplaceChar '-' ' ' ((pySplitOn path "/").getLastD ""))
    if title ≠ "" then pyTitle title else "Discovered Paper"

/-- Embeds `TavilyMapper._extract_venue_from_url`. -/
def extract_venue_from_url (url : String) : String :=
  if strContains url "arxiv.org" then "ArXiv"
  else if strContains url "ieee.org" then "IEEE"
  else if strContains url "acm.org" then "ACM"
  else if strContains url "springer.com" then "Springer"
  else if strContains url "nature.com" then "Nature"
  else if strContains url "science.org" then "Science"
  else "Academic Venue"

/-- Embeds `TavilyMapper._extract_keywords_from_url`; the final `list(set(...))[:8]`
is modelled as first-occurrence `dedup` (CPython set order is unspecified). -/
def extract_keywords_from_url (url topic : String) : List String :=
  let keywords := wordTokens (pyLower topic)
  let keywords := keywords ++
    (if strContains url "ml" || strContains url "machine" then ["machine learning", "ml"] else [])
  let keywords := keywords ++
    (if strContains url "ai" || strContains url "artificial" then ["artificial intelligence", "ai"] else [])
  let keywords := keywords ++
    (if strContains url "nlp" || strContains url "language" then ["natural language processing", "nlp"] else [])
  let keywords := keywords ++
    (if strContains url "cv" || strContains url "vision" then ["computer vision", "cv"] else [])
  keywords.dedup.take 8

/-- Embeds `TavilyMapper._estimate_credibility_from_url`. -/
def estimate_credibility_from_url (url : String) : ℚ :=
  if ["arxiv.org", "nature.com", "science.org"].any (fun d => strContains url d) then 8.5
  else if ["ieee.org", "acm.org", "springer.com"].any (fun d => strContains url d) then 7.5
  else if ["scholar.google.com", "semanticscholar.org"].any (fun d => strContains url d) then 7.0
  else 6.0

/-- Embeds `TavilyMapper._extract_paper_from_url`.  Here `pyHash` stands for Python's
process-randomised builtin `hash` on strings; `_enhance_paper_info` only
adds the keys `enhanced` / `discovery_timestamp`, which no downstream
consumer reads, so it is the identity on this record.  The surrounding
`try`/`except` cannot fire: every step here is total. -/
def extract_paper_from_url (pyHash : String → ℤ) (url topic : String) : Paper :=
  { id := pyHash url % 10000
    url := url
    title := extract_title_from_url url
    authors := []
    year := 2023
    venue := extract_venue_from_url url
    abstract := "Paper discovered through mapping related to " ++ topic
    keywords := extract_keywords_from_url url topic
    credibility := estimate_credibility_from_url url
    citations := 0
    discovery_method := "tavily_map" }

/-- Embeds `TavilyMapper._generate_fallback_papers`: `count` deterministic
synthetic papers. -/
def generate_fallback_papers (topic : String) (count : ℕ) : List Paper :=
  let research_areas := ["transformer architectures", "neural networks", "deep learning",
    "machine learning", "natural language processing", "computer vision",
    "reinforcement learning", "generative models", "optimization algorithms",
    "representation learning"]
  let venues := ["ArXiv", "ICLR", "NeurIPS", "ICML", "AAAI", "IJCAI", "ACL", "EMNLP"]
  (List.range count).map (fun i =>
    let area := research_areas.getD (i % research_areas.length) ""
    let venue := venues.getD (i % venues.length) ""
    { id := 9000 + (i : ℤ)
      title := "Advanced " ++ pyTitle area ++ " for " ++ topic
      authors := ["Author " ++ toString (i + 1) ++ " et al."]
      year := 2023 - ((i : ℤ) % 3)
      venue := venue
      abstract := "This paper presents novel approaches to " ++ area ++ " applied to " ++ topic ++
        ". The work builds upon recent advances in the field and demonstrates significant improvements over existing methods."
      keywords := [area, pyLower topic, "deep learning", "neural networks"]
      credibility := 7.0 + ((i % 2 : ℕ) : ℚ)
      citations := 50 + (i : ℤ) * 10
      url := "https://arxiv.org/abs/2023." ++ pad4 (i + 1)
      discovery_method := "fallback_generation" })

/-- The deduplication loop of `TavilyMapper._process_discovered_urls`:
iterate URLs in discovery order, skip papers whose normalised title
(`title.lower().strip()`) was already seen, and stop once 35 papers have
been accepted (`if len(papers) >= 35: break` fires after the append).
The per-URL `try`/`except` never fires: extraction is total. -/
def process_loop (pyHash : String → ℤ) (topic : String) :
    List String → List String → ℕ → List Paper
  | [], _seen, _n => []
  | url :: rest, seen, n =>
    let paper_info := extract_paper_from_url pyHash url topic
    if paper_info.title = "" then process_loop pyHash topic rest seen n
    else
      let title_key := pyStrip (pyLower paper_info.title)
      if seen.contains title_key then process_loop pyHash topic rest seen n
      else if n + 1 ≥ 35 then [paper_info]
      else paper_info :: process_loop pyHash topic rest (title_key :: seen) (n + 1)

/-- Embeds `TavilyMapper._process_discovered_urls`: deduplicate, then top up to
15 papers with synthetic fallbacks. -/
def process_discovered_urls (pyHash : String → ℤ) (urls : List String) (topic : String) :
    List Paper :=
  let papers := process_loop pyHash topic urls [] 0
  if papers.length < 15 then papers ++ generate_fallback_papers topic (15 - papers.length)
  else papers

/-- Embeds `main.calculate_credibility`. -/
def calculate_credibility (content url title : String) : ℚ :=
  let score : ℚ := 5.0
  let score := if strContains url "arxiv.org" then score + 1.5
    else if ["ieee.org", "acm.org", "nature.com", "science.org"].any (fun d => strContains url d) then score + 2.0
    else if ["springer.com", "elsevier.com"].any (fun d => strContains url d) then score + 1.0
    else score
  let content_lower := pyLower content
  let score := if ["citation", "peer-reviewed", "journal"].any (fun w => strContains content_lower w) then score + 0.5 else score
  let score := if ["conference", "proceedings", "workshop"].any (fun w => strContains content_lower w) then score + 0.3 else score
  let score := if title.length > 20 ∧ title.length < 200 then score + 0.2 else score
  min (max score 1.0) 10.0

/-- Embeds `main.estimate_citations`; `variation` is the value drawn from
`random.randint(-200, 1000)`, passed explicitly. -/
def estimate_citations (credibility : ℚ) (year : ℤ) (variation : ℤ) : ℤ :=
  let current_year : ℤ := 2024
  let age := max 1 (current_year - year)
  let base_citations := pyInt (credibility * 100)
  let age_factor := min (age * 50) 500
  max 10 (base_citations + age_factor + variation)

/-- An edge in the external (LLM-collaborator) shape, as built in
`discover_papers_with_mapping`. -/
structure Edge where
  source : String
  target : String
  relationship_type : String
  strength : ℤ
  description : String
  shared_entities : List String
  deriving DecidableEq, Repr

/-- The `graph_data` payload: nodes and clusters are opaque to this core
(produced only by the external extractor). -/
structure GraphData where
  nodes : List String
  edges : List Edge
  entity_clusters : List String
  deriving DecidableEq, Repr

/-- The result dictionary of `TavilyMapper.discover_related_papers`
(the fields the endpoint reads). -/
structure MappingResult where
  papers : List Paper
  paper_connections : List Connection
  deriving DecidableEq, Repr

/-- The response dictionary of the `/discover-papers-with-mapping`
endpoint (the structural fields; `mapping_stats` and `query` are plain
data echoes). -/
structure DiscoverResponse where
  papers : List Paper
  mapped_papers : List Paper
  total_found : ℕ
  graph_data : GraphData
  deriving DecidableEq, Repr

/-- The per-connection edge conversion inlined (twice, identically) in
`discover_papers_with_mapping`: Python `str(...)` on the ids,
`int(similarity * 10)`, and a description synthesised from the
connection type. -/
def conn_to_edge (conn : Connection) : Edge :=
  { source := toString conn.source
    target := toString conn.target
    relationship_type := conn.connection_type
    strength := pyInt (conn.similarity * 10)
    description := "Papers connected through " ++ conn.connection_type
    shared_entities := conn.shared_keywords }

/-- Steps 2–4 of `main.discover_papers_with_mapping`, with Python local
variable scoping made explicit: the `except` branch of step 2 assigns
`mapped_papers` and `mapping_stats` but NOT `paper_connections`, so the
local stays unbound (`none`).  Reading it then raises
`UnboundLocalError`; the first read (line `if paper_connections:` in the
step-4 `try`) is caught by the step-4 `except Exception` handler, but the
handler itself reads `paper_connections` again, and that second raise
propagates out of the endpoint (`Except.error`).  The per-item
`try`/`except` of step 3 never fires on already-typed records. -/
def discover_papers_with_mapping (search_papers : List Paper)
    (mappingResult : Except String MappingResult)
    (llmResult : Except String GraphData) : Except String DiscoverResponse :=
  if search_papers.isEmpty then
    .ok { papers := [], mapped_papers := [], total_found := 0,
          graph_data := { nodes := [], edges := [], entity_clusters := [] } }
  else
    let mapped_papers : List Paper :=
      match mappingResult with
      | .ok mr => mr.papers
      | .error _ => []
    let paper_connections : Option (List Connection) :=
      match mappingResult with
      | .ok mr => some mr.paper_connections
      | .error _ => none
    let all_papers := search_papers ++ mapped_papers
    match llmResult with
    | .ok gd =>
      match paper_connections with
      | some conns =>
        let graph_data :=
          if conns.isEmpty then gd
          else { gd with edges := gd.edges ++ conns.map conn_to_edge }
        .ok { papers := search_papers, mapped_papers := mapped_papers,
              total_found := all_papers.length, graph_data := graph_data }
      | none => .error "UnboundLocalError: paper_connections"
    | .error _ =>
      match paper_connections with
      | some conns =>
        let graph_data : GraphData :=
          if conns.isEmpty then { nodes := [], edges := [], entity_clusters := [] }
          else { nodes := [], edges := conns.map conn_to_edge, entity_clusters := [] }
        .ok { papers := search_papers, mapped_papers := mapped_papers,
              total_found := all_papers.length, graph_data := graph_data }
      | none => .error "UnboundLocalError: paper_connections"

/-- Modelled from the spec: the connection-type taxonomy as an ordered
rule list — each rule is a (fires?, label) pair, and the first rule whose
test fires determines the label, with `Weak_Similarity` as the default. -/
def specConnectionRules (paper1 paper2 : Paper) (similarity : ℚ) : List (Bool × String) :=
  [(decide (similarity > 0.7), "Strong_Similarity"),
   (decide (similarity > 0.5), "Moderate_Similarity"),
   (decide (paper1.venue = paper2.venue), "Same_Venue"),
   (paper1.authors.any (fun author => paper2.authors.contains author), "Shared_Author")]

/-- Modelled from the spec: first-matching rule wins. -/
def specConnectionType (paper1 paper2 : Paper) (similarity : ℚ) : String :=
  (((specConnectionRules paper1 paper2 similarity).find? (fun r => r.fst)).map
    (fun r => r.snd)).getD "Weak_Similarity"

/-- The normalised-title deduplication key (`title.lower().strip()`). -/
def normKey (p : Paper) : String := pyStrip (pyLower p.title)

/-- Proof companion to `process_loop`: the same accept/skip/cap loop, run
on the already-extracted candidate papers. -/
def dedup_core : List Paper → List String → ℕ → List Paper
  | [], _seen, _n => []
  | p :: rest, seen, n =>
    if p.title = "" then dedup_core rest seen n
    else if seen.contains (normKey p) then dedup_core rest seen n
    else if n + 1 ≥ 35 then [p]
    else p :: dedup_core rest (normKey p :: seen) (n + 1)

/-! ### Concrete records used by counterexamples and witnesses -/

/-- A stand-in for Python's process-randomised string hash. -/
def zeroHash : String → ℤ := fun _ => 0

/-- A paper the crawl path actually produces: its author list is empty,
so the author-overlap term of its self-similarity is `0`, not `1`. -/
def authorlessPaper : Paper :=
  extract_paper_from_url (fun _ => 0) "https://arxiv.org/abs/1234" "machine learning"

/-- A fully-populated paper (nonempty keywords, authors and title). -/
def fullPaper : Paper :=
  { id := 1, title := "graph theory", authors := ["Ada Lovelace"], venue := "ArXiv",
    year := 2020, citations := 12, credibility := 8, abstract := "a",
    keywords := ["graphs"], url := "https://arxiv.org/abs/1", discovery_method := "" }

/-- First of a pair of distinct-id papers with pairwise similarity 0.6. -/
def wPaperA : Paper :=
  { id := 1, title := "alpha", authors := [], venue := "V", year := 2023, citations := 0,
    credibility := 6, abstract := "", keywords := ["k"], url := "", discovery_method := "" }

/-- Second of a pair of distinct-id papers with pairwise similarity 0.6. -/
def wPaperB : Paper :=
  { id := 2, title := "beta", authors := [], venue := "V", year := 2023, citations := 0,
    credibility := 6, abstract := "", keywords := ["k"], url := "", discovery_method := "" }

/-- Same as `wPaperA` but with a colliding id 5 (crawl ids are
`hash(url) % 10000`, so two distinct papers can collide). -/
def collidePaperA : Paper :=
  { id := 5, title := "alpha", authors := [], venue := "V", year := 2023, citations := 0,
    credibility := 6, abstract := "", keywords := ["k"], url := "", discovery_method := "" }

/-- Same as `wPaperB` but with the same colliding id 5. -/
def collidePaperB : Paper :=
  { id := 5, title := "beta", authors := [], venue := "V", year := 2023, citations := 0,
    credibility := 6, abstract := "", keywords := ["k"], url := "", discovery_method := "" }

/-- The connection the builder emits for `wPaperA`, `wPaperB`. -/
def wConn : Connection :=
  { source := 1, target := 2, similarity := 3/5, connection_type := "Moderate_Similarity",
    shared_keywords := ["k"], venue_connection := true }

/-- First of a pair of papers with similarity `7/15` (so that
`similarity * 10 = 14/3` separates truncation from rounding). -/
def fracPaperA : Paper :=
  { id := 1, title := "x", authors := [], venue := "V", year := 2023, citations := 0,
    credibility := 6, abstract := "", keywords := ["a", "b"], url := "", discovery_method := "" }

/-- Second of the similarity-`7/15` pair. -/
def fracPaperB : Paper :=
  { id := 2, title := "y", authors := [], venue := "V", year := 2023, citations := 0,
    credibility := 6, abstract := "", keywords := ["a", "b", "c"], url := "", discovery_method := "" }

/-- The connection the builder emits for `fracPaperA`, `fracPaperB`. -/
def fracConn : Connection :=
  { source := 1, target := 2, similarity := 7/15, connection_type := "Same_Venue",
    shared_keywords := ["a", "b"], venue_connection := true }

/-! ## Helper lemmas about the similarity scorer -/

lemma jaccard_div_eq (s t : Finset String) :
    ((s ∩ t).card : ℚ) / ((max (s ∪ t).card 1 : ℕ) : ℚ) = specJaccard s t := by
  unfold specJaccard
  by_cases h : s ∪ t = ∅
  · obtain ⟨hs, ht⟩ := Finset.union_eq_empty.mp h
    simp [h, hs, ht]
  · have h1 : 1 ≤ (s ∪ t).card :=
      Finset.card_pos.mpr (Finset.nonempty_iff_ne_empty.mpr h)
    rw [if_neg h, Nat.max_eq_left h1]

lemma specJaccard_nonneg (s t : Finset String) : 0 ≤ specJaccard s t := by
  unfold specJaccard
  split
  · exact le_refl 0
  · positivity

lemma specJaccard_le_one (s t : Finset String) : specJaccard s t ≤ 1 := by
  unfold specJaccard
  split
  · exact zero_le_one
  · rename_i h
    have hpos : (0 : ℚ) < (((s ∪ t).card : ℕ) : ℚ) := by
      have := Finset.card_pos.mpr (Finset.nonempty_iff_ne_empty.mpr h)
      exact_mod_cast this
    rw [div_le_one hpos]
    exact_mod_cast Finset.card_le_card (Finset.inter_subset_union)

lemma specJaccard_self (s : Finset String) (h : s ≠ ∅) : specJaccard s s = 1 := by
  unfold specJaccard
  rw [Finset.union_self, Finset.inter_self, if_neg h]
  have hpos : (0 : ℚ) < ((s.card : ℕ) : ℚ) := by
    have := Finset.card_pos.mpr (Finset.nonempty_iff_ne_empty.mpr h)
    exact_mod_cast this
  exact div_self (ne_of_gt hpos)

lemma specYearTerm_nonneg (y1 y2 : ℤ) : 0 ≤ specYearTerm y1 y2 := le_max_left 0 _

lemma specYearTerm_le_one (y1 y2 : ℤ) : specYearTerm y1 y2 ≤ 1 := by
  unfold specYearTerm
  have h5 : (0 : ℚ) ≤ ((y1 - y2).natAbs : ℚ) / 5 := by positivity
  exact max_le (by norm_num) (by linarith)

lemma specYearTerm_self (y : ℤ) : specYearTerm y y = 1 := by
  unfold specYearTerm
  norm_num

lemma specJaccard_empty : specJaccard ∅ ∅ = 0 := by
  simp [specJaccard]

/-- The scorer, rewritten against the spec-shaped signal functions. -/
lemma similarity_eq_spec (p1 p2 : Paper) (topic : String) :
    calculate_paper_similarity p1 p2 topic =
      0.4 * specJaccard (keywordSet p1) (keywordSet p2) +
      0.2 * specJaccard (authorSet p1) (authorSet p2) +
      0.1 * (if p1.venue = p2.venue then 1 else 0) +
      0.1 * specYearTerm p1.year p2.year +
      0.2 * specJaccard (titleTokenSet p1) (titleTokenSet p2) := by
  simp only [calculate_paper_similarity, keywordSet, authorSet, titleTokenSet, specYearTerm]
  rw [jaccard_div_eq, jaccard_div_eq, jaccard_div_eq]
  split_ifs <;> ring

lemma similarity_nonneg (p1 p2 : Paper) (topic : String) :
    0 ≤ calculate_paper_similarity p1 p2 topic := by
  rw [similarity_eq_spec]
  have h1 := specJaccard_nonneg (keywordSet p1) (keywordSet p2)
  have h2 := specJaccard_nonneg (authorSet p1) (authorSet p2)
  have h3 := specYearTerm_nonneg p1.year p2.year
  have h4 := specJaccard_nonneg (titleTokenSet p1) (titleTokenSet p2)
  split_ifs <;> linarith

lemma similarity_le_one (p1 p2 : Paper) (topic : String) :
    calculate_paper_similarity p1 p2 topic ≤ 1 := by
  rw [similarity_eq_spec]
  have h1 := specJaccard_le_one (keywordSet p1) (keywordSet p2)
  have h2 := specJaccard_le_one (authorSet p1) (authorSet p2)
  have h3 := specYearTerm_le_one p1.year p2.year
  have h4 := specJaccard_le_one (titleTokenSet p1) (titleTokenSet p2)
  split_ifs <;> linarith

/-! ## C1 -/

/-- C1: for every pair of paper records, the similarity score equals
exactly `0.4·J(keywords) + 0.2·J(authors) + 0.1·[venue equal] +
0.1·max(0, 1 − |y1−y2|/5) + 0.2·J(title tokens)`, where each Jaccard
overlap `J` is `0` on an empty union, and the result lies in `[0, 1]`. -/
theorem similarity_score_formula_and_range (p1 p2 : Paper) (topic : String) :
    calculate_paper_similarity p1 p2 topic =
      0.4 * specJaccard (keywordSet p1) (keywordSet p2) +
      0.2 * specJaccard (authorSet p1) (authorSet p2) +
      0.1 * (if p1.venue = p2.venue then 1 else 0) +
      0.1 * specYearTerm p1.year p2.year +
      0.2 * specJaccard (titleTokenSet p1) (titleTokenSet p2) ∧
    0 ≤ calculate_paper_similarity p1 p2 topic ∧
    calculate_paper_similarity p1 p2 topic ≤ 1 :=
  ⟨similarity_eq_spec p1 p2 topic, similarity_nonneg p1 p2 topic,
    similarity_le_one p1 p2 topic⟩

/-! ## C2 -/

/-- C2 counterexample: a crawl-extracted paper (empty author list) has
self-similarity `4/5`, not `1.0`. -/
theorem self_similarity_authorless_counterexample :
    calculate_paper_similarity authorlessPaper authorlessPaper "machine learning" = 4/5 ∧
    (4 : ℚ)/5 ≠ 1 := by
  constructor
  · have ha : authorSet authorlessPaper = ∅ := by decide
    rw [similarity_eq_spec, specJaccard_self _ (by decide), ha, specJaccard_empty,
      if_pos rfl, specYearTerm_self, specJaccard_self _ (by decide)]
    norm_num
  · norm_num

/-- C2 amended: the self-similarity of a paper is `1.0` provided its
keyword set, author set and title token set are all nonempty (the venue
and year terms always reach `1.0`); a paper with an empty author or
keyword list loses that term's weight entirely. -/
theorem self_similarity_one_of_nonempty (p : Paper) (topic : String)
    (hk : keywordSet p ≠ ∅) (ha : authorSet p ≠ ∅) (ht : titleTokenSet p ≠ ∅) :
    calculate_paper_similarity p p topic = 1 := by
  rw [similarity_eq_spec, specJaccard_self _ hk, specJaccard_self _ ha,
    specJaccard_self _ ht, if_pos rfl]
  unfold specYearTerm
  norm_num

/-- Witness for the amended C2 at a concrete fully-populated paper. -/
theorem self_similarity_one_witness :
    calculate_paper_similarity fullPaper fullPaper "graphs" = 1 :=
  self_similarity_one_of_nonempty fullPaper "graphs" (by decide) (by decide) (by decide)

/-! ## Helper lemmas for concrete similarity values and the builder -/

/-- Evaluate a Jaccard term from its two cardinalities. -/
lemma specJaccard_card (s t : Finset String) (a b : ℕ)
    (ha : (s ∩ t).card = a) (hb : (s ∪ t).card = b) (hbne : b ≠ 0) :
    specJaccard s t = (a : ℚ) / (b : ℚ) := by
  subst ha
  subst hb
  rw [specJaccard, if_neg]
  intro h
  exact hbne (by rw [h]; rfl)

lemma wPair_similarity : calculate_paper_similarity wPaperA wPaperB "t" = 3/5 := by
  have hk : specJaccard (keywordSet wPaperA) (keywordSet wPaperB) = (1 : ℚ) / 1 :=
    specJaccard_card _ _ 1 1 (by decide) (by decide) one_ne_zero
  have ht : specJaccard (titleTokenSet wPaperA) (titleTokenSet wPaperB) = (0 : ℚ) / 2 :=
    specJaccard_card _ _ 0 2 (by decide) (by decide) two_ne_zero
  have ha : authorSet wPaperA = ∅ := by decide
  have hb : authorSet wPaperB = ∅ := by decide
  have hv : wPaperA.venue = wPaperB.venue := rfl
  have hy : wPaperA.year = wPaperB.year := rfl
  rw [similarity_eq_spec, hk, ha, hb, specJaccard_empty, ht, if_pos hv, hy, specYearTerm_self]
  norm_num

lemma fracPair_similarity : calculate_paper_similarity fracPaperA fracPaperB "t" = 7/15 := by
  have hk : specJaccard (keywordSet fracPaperA) (keywordSet fracPaperB) = (2 : ℚ) / 3 :=
    specJaccard_card _ _ 2 3 (by decide) (by decide) three_ne_zero
  have ht : specJaccard (titleTokenSet fracPaperA) (titleTokenSet fracPaperB) = (0 : ℚ) / 2 :=
    specJaccard_card _ _ 0 2 (by decide) (by decide) two_ne_zero
  have ha : authorSet fracPaperA = ∅ := by decide
  have hb : authorSet fracPaperB = ∅ := by decide
  have hv : fracPaperA.venue = fracPaperB.venue := rfl
  have hy : fracPaperA.year = fracPaperB.year := rfl
  rw [similarity_eq_spec, hk, ha, hb, specJaccard_empty, ht, if_pos hv, hy, specYearTerm_self]
  norm_num

/-- The builder on a two-paper list, evaluated. -/
lemma generate_two (p q : Paper) (topic : String) :
    generate_paper_connections [p, q] topic =
      if calculate_paper_similarity p q topic > 0.3 then
        [{ source := p.id, target := q.id,
           similarity := calculate_paper_similarity p q topic,
           connection_type := determine_connection_type p q
             (calculate_paper_similarity p q topic),
           shared_keywords := find_shared_keywords p q,
           venue_connection := decide (p.venue = q.venue) }]
      else [] := by
  simp only [generate_paper_connections, List.filterMap_cons, List.filterMap_nil]
  split_ifs <;> simp

lemma wPair_connections : generate_paper_connections [wPaperA, wPaperB] "t" = [wConn] := by
  rw [generate_two, if_pos (by rw [wPair_similarity]; norm_num)]
  have htype : determine_connection_type wPaperA wPaperB
      (calculate_paper_similarity wPaperA wPaperB "t") = "Moderate_Similarity" := by
    rw [wPair_similarity, determine_connection_type, if_neg (by norm_num), if_pos (by norm_num)]
  rw [wPair_similarity] at htype ⊢
  rw [htype]
  have hsk : find_shared_keywords wPaperA wPaperB = ["k"] := by decide
  rw [hsk]
  rfl

lemma fracPair_connections :
    generate_paper_connections [fracPaperA, fracPaperB] "t" = [fracConn] := by
  rw [generate_two, if_pos (by rw [fracPair_similarity]; norm_num)]
  have htype : determine_connection_type fracPaperA fracPaperB
      (calculate_paper_similarity fracPaperA fracPaperB "t") = "Same_Venue" := by
    rw [fracPair_similarity, determine_connection_type, if_neg (by norm_num),
      if_neg (by norm_num), if_pos (show fracPaperA.venue = fracPaperB.venue from rfl)]
  rw [fracPair_similarity] at htype ⊢
  rw [htype]
  have hsk : find_shared_keywords fracPaperA fracPaperB = ["a", "b"] := by decide
  rw [hsk]
  rfl

/-- Every emitted connection comes from an ordered pair of papers of the
input list, scores above the threshold, and carries those papers' ids. -/
lemma mem_generate_paper_connections {papers : List Paper} {topic : String} {c : Connection}
    (hc : c ∈ generate_paper_connections papers topic) :
    ∃ p q : Paper, [p, q].Sublist papers ∧
      c.similarity = calculate_paper_similarity p q topic ∧
      0.3 < c.similarity ∧ c.source = p.id ∧ c.target = q.id := by
  induction papers with
  | nil => simp [generate_paper_connections] at hc
  | cons p1 rest ih =>
    rw [generate_paper_connections, List.mem_append] at hc
    rcases hc with hc | hc
    · rw [List.mem_filterMap] at hc
      obtain ⟨q, hq, hfq⟩ := hc
      by_cases hs : calculate_paper_similarity p1 q topic > 0.3
      · rw [if_pos hs] at hfq
        obtain rfl := Option.some.inj hfq
        exact ⟨p1, q, (List.singleton_sublist.mpr hq).cons₂ p1, rfl, hs, rfl, rfl⟩
      · rw [if_neg hs] at hfq
        cases hfq
    · obtain ⟨p, q, hsub, h1, h2, h3, h4⟩ := ih hc
      exact ⟨p, q, hsub.cons p1, h1, h2, h3, h4⟩

/-! ## C3 -/

/-- C3: every connection the builder emits has similarity strictly above
0.3; and provided the papers' ids are pairwise distinct, its source and
target ids differ.  (The distinctness proviso is necessary: crawl ids are
a hash reduced mod 10000 and can collide, see the counterexample.) -/
theorem connection_threshold_and_no_self_loop (papers : List Paper) (topic : String)
    (c : Connection) (hc : c ∈ generate_paper_connections papers topic) :
    0.3 < c.similarity ∧ ((papers.map Paper.id).Nodup → c.source ≠ c.target) := by
  obtain ⟨p, q, hsub, _hsim, hlt, hsrc, htgt⟩ := mem_generate_paper_connections hc
  refine ⟨hlt, fun hnd heq => ?_⟩
  have hids : [p.id, q.id].Sublist (papers.map Paper.id) := by
    simpa using hsub.map Paper.id
  have hnd2 : [p.id, q.id].Nodup := hnd.sublist hids
  rw [hsrc, htgt] at heq
  simp [heq] at hnd2

/-- Witness for C3 on a concrete distinct-id pair. -/
theorem connection_threshold_witness :
    0.3 < wConn.similarity ∧ wConn.source ≠ wConn.target := by
  have h := connection_threshold_and_no_self_loop [wPaperA, wPaperB] "t" wConn
    (by rw [wPair_connections]; exact List.mem_singleton.mpr rfl)
  exact ⟨h.1, h.2 (by decide)⟩

/-- C3 counterexample: two distinct papers whose hashed ids collide (id
5 for both) produce a connection whose source equals its target — the
builder does not prevent self-loops under id collision. -/
theorem connection_self_loop_counterexample :
    (generate_paper_connections [collidePaperA, collidePaperB] "t").map
      (fun c => (c.source, c.target)) = [(5, 5)] := by
  have hsim : calculate_paper_similarity collidePaperA collidePaperB "t" =
      calculate_paper_similarity wPaperA wPaperB "t" := rfl
  rw [generate_two, if_pos (by rw [hsim, wPair_similarity]; norm_num)]
  rfl

/-! ## C4 -/

/-- C4: the connection type is assigned by the first matching rule, in
the fixed order Strong (>0.7), Moderate (>0.5), Same_Venue, Shared_Author,
default Weak; in particular two same-venue papers at similarity 0.6 are
classified `Moderate_Similarity`, not `Same_Venue`. -/
theorem connection_type_first_match_rule :
    (∀ (p1 p2 : Paper) (s : ℚ),
      determine_connection_type p1 p2 s = specConnectionType p1 p2 s) ∧
    determine_connection_type wPaperA wPaperB 0.6 = "Moderate_Similarity" ∧
    wPaperA.venue = wPaperB.venue := by
  refine ⟨fun p1 p2 s => ?_, ?_, rfl⟩
  · unfold determine_connection_type specConnectionType specConnectionRules
    by_cases h1 : s > 0.7
    · rw [if_pos h1]
      simp [List.find?, h1]
    · rw [if_neg h1]
      by_cases h2 : s > 0.5
      · rw [if_pos h2]
        simp [List.find?, h1, h2]
      · rw [if_neg h2]
        by_cases h3 : p1.venue = p2.venue
        · rw [if_pos h3]
          simp [List.find?, h1, h2, h3]
        · rw [if_neg h3]
          cases h4 : p1.authors.any (fun author => p2.authors.contains author)
          · rw [if_neg (by simp [h4])]
            simp [List.find?, h1, h2, h3, h4]
          · rw [if_pos (by simp [h4])]
            simp [List.find?, h1, h2, h3, h4]
  · rw [determine_connection_type, if_neg (by norm_num), if_pos (by norm_num)]

/-! ## Helper lemmas for the deduplication loop -/

lemma process_loop_eq_dedup_core (pyHash : String → ℤ) (topic : String) (urls : List String)
    (seen : List String) (n : ℕ) :
    process_loop pyHash topic urls seen n =
      dedup_core (urls.map (fun u => extract_paper_from_url pyHash u topic)) seen n := by
  induction urls generalizing seen n with
  | nil => rfl
  | cons u rest ih =>
    simp only [process_loop, List.map_cons, dedup_core, normKey]
    split_ifs <;> simp [ih]

lemma dedup_core_not_seen (l : List Paper) :
    ∀ (seen : List String) (n : ℕ) (p : Paper),
      p ∈ dedup_core l seen n → normKey p ∉ seen := by
  induction l with
  | nil =>
    intro seen n p hp
    simp [dedup_core] at hp
  | cons q rest ih =>
    intro seen n p hp
    rw [dedup_core] at hp
    split_ifs at hp with h1 h2 h3
    · exact ih seen n p hp
    · exact ih seen n p hp
    · rw [List.mem_singleton] at hp
      subst hp
      intro hmem
      exact h2 (by simpa using hmem)
    · rcases List.mem_cons.mp hp with rfl | hp'
      · intro hmem
        exact h2 (by simpa using hmem)
      · have hni := ih _ _ p hp'
        intro hmem
        exact hni (List.mem_cons_of_mem _ hmem)

lemma dedup_core_nodup (l : List Paper) :
    ∀ (seen : List String) (n : ℕ), ((dedup_core l seen n).map normKey).Nodup := by
  induction l with
  | nil =>
    intro seen n
    simp [dedup_core]
  | cons q rest ih =>
    intro seen n
    rw [dedup_core]
    split_ifs with h1 h2 h3
    · exact ih seen n
    · exact ih seen n
    · simp
    · rw [List.map_cons]
      refine List.nodup_cons.mpr ⟨?_, ih _ _⟩
      intro hmem
      rw [List.mem_map] at hmem
      obtain ⟨p', hp', heq⟩ := hmem
      exact dedup_core_not_seen rest _ _ p' hp' (List.mem_cons.mpr (Or.inl heq))

lemma dedup_core_length (l : List Paper) :
    ∀ (seen : List String) (n : ℕ), n ≤ 34 → (dedup_core l seen n).length ≤ 35 - n := by
  induction l with
  | nil =>
    intro seen n _
    simp [dedup_core]
  | cons q rest ih =>
    intro seen n hn
    rw [dedup_core]
    split_ifs with h1 h2 h3
    · exact ih seen n hn
    · exact ih seen n hn
    · simp only [List.length_singleton]
      omega
    · rw [List.length_cons]
      have hrec := ih (normKey q :: seen) (n + 1) (by omega)
      omega

lemma dedup_core_sublist (l : List Paper) :
    ∀ (seen : List String) (n : ℕ),
      (dedup_core l seen n).Sublist (l.filter (fun p => p.title != "")) := by
  induction l with
  | nil =>
    intro seen n
    simp [dedup_core]
  | cons q rest ih =>
    intro seen n
    rw [dedup_core]
    split_ifs with h1 h2 h3
    · rw [List.filter_cons, if_neg (by simp [h1])]
      exact ih seen n
    · rw [List.filter_cons, if_pos (by simp [h1])]
      exact (ih seen n).cons q
    · rw [List.filter_cons, if_pos (by simp [h1])]
      exact (List.nil_sublist _).cons₂ q
    · rw [List.filter_cons, if_pos (by simp [h1])]
      exact (ih _ _).cons₂ q

lemma dedup_core_find (l : List Paper) :
    ∀ (seen : List String) (n : ℕ) (p : Paper), p ∈ dedup_core l seen n →
      (l.filter (fun q => q.title != "")).find? (fun q => normKey q == normKey p) = some p := by
  induction l with
  | nil =>
    intro seen n p hp
    simp [dedup_core] at hp
  | cons q rest ih =>
    intro seen n p hp
    rw [dedup_core] at hp
    split_ifs at hp with h1 h2 h3
    · rw [List.filter_cons, if_neg (by simp [h1])]
      exact ih _ _ _ hp
    · rw [List.filter_cons, if_pos (by simp [h1])]
      have hnp : normKey p ∉ seen := dedup_core_not_seen rest seen n p hp
      have hq : normKey q ∈ seen := by simpa using h2
      have hne : (normKey q == normKey p) = false := by
        simp only [beq_eq_false_iff_ne, ne_eq]
        intro heq
        exact hnp (heq ▸ hq)
      rw [List.find?_cons_of_neg _ (by simp [hne])]
      exact ih _ _ _ hp
    · rw [List.mem_singleton] at hp
      subst hp
      rw [List.filter_cons, if_pos (by simp [h1])]
      exact List.find?_cons_of_pos _ (by simp)
    · rcases List.mem_cons.mp hp with rfl | hp'
      · rw [List.filter_cons, if_pos (by simp [h1])]
        exact List.find?_cons_of_pos _ (by simp)
      · rw [List.filter_cons, if_pos (by simp [h1])]
        have hnp : normKey p ∉ normKey q :: seen := dedup_core_not_seen rest _ _ p hp'
        have hne : (normKey q == normKey p) = false := by
          simp only [beq_eq_false_iff_ne, ne_eq]
          intro heq
          exact hnp (List.mem_cons.mpr (Or.inl heq.symm))
        rw [List.find?_cons_of_neg _ (by simp [hne])]
        exact ih _ _ _ hp'

/-! ## C5 -/

/-- C5: the deduplication stage emits papers with pairwise-distinct
normalised titles (`lower().strip()`), keeps at most 35 papers, preserves
discovery order (its output is a sublist of the extracted candidates),
and keeps precisely the first candidate for each normalised title. -/
theorem dedup_no_duplicates_and_cap (pyHash : String → ℤ) (urls : List String) (topic : String) :
    ((process_loop pyHash topic urls [] 0).map normKey).Nodup ∧
    (process_loop pyHash topic urls [] 0).length ≤ 35 ∧
    (process_loop pyHash topic urls [] 0).Sublist
      ((urls.map (fun u => extract_paper_from_url pyHash u topic)).filter
        (fun p => p.title != "")) ∧
    ∀ p ∈ process_loop pyHash topic urls [] 0,
      ((urls.map (fun u => extract_paper_from_url pyHash u topic)).filter
          (fun q => q.title != "")).find? (fun q => normKey q == normKey p) = some p := by
  rw [process_loop_eq_dedup_core]
  refine ⟨dedup_core_nodup _ _ _, ?_, dedup_core_sublist _ _ _,
    fun p hp => dedup_core_find _ _ _ p hp⟩
  have h := dedup_core_length (urls.map (fun u => extract_paper_from_url pyHash u topic)) [] 0
    (by norm_num)
  omega

/-- The URL list used to witness C5 (the first URL repeats, so its second
occurrence must be dropped). -/
def wUrls : List String :=
  ["https://arxiv.org/abs/1111", "https://arxiv.org/abs/2222", "https://arxiv.org/abs/1111"]

/-- The paper extracted from the first witness URL. -/
def wDedupPaperA : Paper := extract_paper_from_url zeroHash "https://arxiv.org/abs/1111" "ai"

/-- The paper extracted from the second witness URL. -/
def wDedupPaperB : Paper := extract_paper_from_url zeroHash "https://arxiv.org/abs/2222" "ai"

/-- Witness for C5 on a concrete three-URL input with one duplicate. -/
theorem dedup_witness :
    ((process_loop zeroHash "ai" wUrls [] 0).map normKey).Nodup ∧
    (process_loop zeroHash "ai" wUrls [] 0).length ≤ 35 ∧
    (process_loop zeroHash "ai" wUrls [] 0).Sublist
      ((wUrls.map (fun u => extract_paper_from_url zeroHash u "ai")).filter
        (fun p => p.title != "")) ∧
    ((wUrls.map (fun u => extract_paper_from_url zeroHash u "ai")).filter
        (fun q => q.title != "")).find?
      (fun q => normKey q == normKey wDedupPaperA) = some wDedupPaperA := by
  have h := dedup_no_duplicates_and_cap zeroHash wUrls "ai"
  have e : process_loop zeroHash "ai" wUrls [] 0 = [wDedupPaperA, wDedupPaperB] := rfl
  exact ⟨h.1, h.2.1, h.2.2.1,
    h.2.2.2 wDedupPaperA (by rw [e]; exact List.mem_cons_self _ _)⟩

/-! ## Helper lemmas for the quota enforcer -/

lemma mem_process_loop_discovery_method (pyHash : String → ℤ) (topic : String)
    (urls : List String) (seen : List String) (n : ℕ) :
    ∀ p ∈ process_loop pyHash topic urls seen n, p.discovery_method = "tavily_map" := by
  intro p hp
  rw [process_loop_eq_dedup_core] at hp
  have hsub := dedup_core_sublist (urls.map (fun u => extract_paper_from_url pyHash u topic))
    seen n
  have hmem := hsub.subset hp
  rw [List.mem_filter] at hmem
  obtain ⟨hmem', _⟩ := hmem
  rw [List.mem_map] at hmem'
  obtain ⟨u, _, rfl⟩ := hmem'
  rfl

lemma generate_fallback_papers_map_id (topic : String) (count : ℕ) :
    (generate_fallback_papers topic count).map Paper.id =
      (List.range count).map (fun i : ℕ => 9000 + (i : ℤ)) := by
  rw [generate_fallback_papers, List.map_map]
  rfl

lemma generate_fallback_papers_method (topic : String) (count : ℕ) :
    ∀ p ∈ generate_fallback_papers topic count,
      p.discovery_method = "fallback_generation" := by
  intro p hp
  rw [generate_fallback_papers, List.mem_map] at hp
  obtain ⟨i, _, rfl⟩ := hp
  rfl

lemma generate_fallback_papers_length (topic : String) (count : ℕ) :
    (generate_fallback_papers topic count).length = count := by
  rw [generate_fallback_papers, List.length_map, List.length_range]

/-! ## C6 -/

/-- C6: when the deduplicated set has `k < 15` papers, the final list has
exactly 15, and its `fallback_generation`-tagged members carry precisely
the ids `9000, 9001, …, 9000 + (15 − k) − 1` in order. -/
theorem quota_fallback_fills_to_fifteen (pyHash : String → ℤ) (urls : List String)
    (topic : String) (h : (process_loop pyHash topic urls [] 0).length < 15) :
    (process_discovered_urls pyHash urls topic).length = 15 ∧
    ((process_discovered_urls pyHash urls topic).filter
        (fun p => p.discovery_method == "fallback_generation")).map Paper.id =
      (List.range (15 - (process_loop pyHash topic urls [] 0).length)).map
        (fun i : ℕ => 9000 + (i : ℤ)) := by
  simp only [process_discovered_urls]
  rw [if_pos h]
  constructor
  · rw [List.length_append, generate_fallback_papers_length]
    omega
  · rw [List.filter_append]
    have h1 : (process_loop pyHash topic urls [] 0).filter
        (fun p => p.discovery_method == "fallback_generation") = [] := by
      rw [List.filter_eq_nil_iff]
      intro p hp
      rw [mem_process_loop_discovery_method pyHash topic urls [] 0 p hp]
      decide
    have h2 : (generate_fallback_papers topic
          (15 - (process_loop pyHash topic urls [] 0).length)).filter
        (fun p => p.discovery_method == "fallback_generation") =
        generate_fallback_papers topic (15 - (process_loop pyHash topic urls [] 0).length) := by
      rw [List.filter_eq_self]
      intro p hp
      rw [generate_fallback_papers_method _ _ p hp]
      decide
    rw [h1, h2, List.nil_append, generate_fallback_papers_map_id]

/-- Three URLs with three distinct titles, as in the spec's scenario. -/
def wUrls3 : List String :=
  ["https://arxiv.org/abs/1111", "https://arxiv.org/abs/2222", "https://arxiv.org/abs/3333"]

/-- Witness for C6: three deduplicated papers get topped up with twelve
synthetic ones, ids 9000–9011. -/
theorem quota_witness :
    (process_discovered_urls zeroHash wUrls3 "ai").length = 15 ∧
    ((process_discovered_urls zeroHash wUrls3 "ai").filter
        (fun p => p.discovery_method == "fallback_generation")).map Paper.id =
      (List.range (15 - (process_loop zeroHash "ai" wUrls3 [] 0).length)).map
        (fun i : ℕ => 9000 + (i : ℤ)) :=
  quota_fallback_fills_to_fifteen zeroHash wUrls3 "ai" (by decide)

/-! ## Helper lemmas for credibility and citations -/

lemma calculate_credibility_bounds (content url title : String) :
    1 ≤ calculate_credibility content url title ∧ calculate_credibility content url title ≤ 10 := by
  simp only [calculate_credibility]
  constructor
  · exact le_min (le_trans (by norm_num) (le_max_right _ _)) (by norm_num)
  · exact le_trans (min_le_right _ _) (by norm_num)

lemma pyRound1_bounds {q : ℚ} (h1 : 1 ≤ q) (h2 : q ≤ 10) :
    1 ≤ pyRound1 q ∧ pyRound1 q ≤ 10 := by
  unfold pyRound1
  rw [round_eq]
  constructor
  · rw [le_div_iff₀ (by norm_num : (0 : ℚ) < 10)]
    have hfl : (10 : ℤ) ≤ ⌊q * 10 + 1/2⌋ := by
      apply Int.le_floor.mpr
      push_cast
      linarith
    calc (1 : ℚ) * 10 = 10 := by norm_num
    _ ≤ (⌊q * 10 + 1/2⌋ : ℚ) := by exact_mod_cast hfl
  · rw [div_le_iff₀ (by norm_num : (0 : ℚ) < 10)]
    have hfl : ⌊q * 10 + 1/2⌋ < (101 : ℤ) := by
      apply Int.floor_lt.mpr
      push_cast
      linarith
    have hfl' : ⌊q * 10 + 1/2⌋ ≤ (100 : ℤ) := by omega
    calc (⌊q * 10 + 1/2⌋ : ℚ) ≤ 100 := by exact_mod_cast hfl'
    _ = 10 * 10 := by norm_num

lemma estimate_credibility_from_url_bounds (url : String) :
    1 ≤ estimate_credibility_from_url url ∧ estimate_credibility_from_url url ≤ 10 := by
  unfold estimate_credibility_from_url
  split_ifs <;> norm_num

/-! ## C7 -/

/-- C7 counterexample: a crawl-inferred paper is created with
`citations = 0`, violating the claimed `citations ≥ 10`. -/
theorem crawl_citations_zero_counterexample :
    (extract_paper_from_url zeroHash "https://arxiv.org/abs/1234" "machine learning").citations
      = 0 ∧
    ¬ (10 ≤ (extract_paper_from_url zeroHash "https://arxiv.org/abs/1234"
        "machine learning").citations) := by
  exact ⟨rfl, by decide⟩

/-- C7 amended: credibility lies in `[1, 10]` for all three paper
sources (search-extracted after rounding to one decimal, crawl-inferred,
synthetic), and `citations ≥ 10` holds for search-extracted and synthetic
papers — but crawl-inferred papers are created with `citations = 0`. -/
theorem credibility_citations_bounds :
    (∀ content url title : String,
      1 ≤ pyRound1 (calculate_credibility content url title) ∧
      pyRound1 (calculate_credibility content url title) ≤ 10) ∧
    (∀ (credibility : ℚ) (year variation : ℤ),
      10 ≤ estimate_citations credibility year variation) ∧
    (∀ (pyHash : String → ℤ) (url topic : String),
      (1 ≤ (extract_paper_from_url pyHash url topic).credibility ∧
        (extract_paper_from_url pyHash url topic).credibility ≤ 10) ∧
      (extract_paper_from_url pyHash url topic).citations = 0) ∧
    (∀ (topic : String) (count : ℕ), ∀ p ∈ generate_fallback_papers topic count,
      (1 ≤ p.credibility ∧ p.credibility ≤ 10) ∧ 10 ≤ p.citations) := by
  refine ⟨fun c u t => ?_, fun c y v => le_max_left 10 _, fun h u t => ⟨?_, rfl⟩,
    fun t n p hp => ?_⟩
  · exact pyRound1_bounds (calculate_credibility_bounds c u t).1
      (calculate_credibility_bounds c u t).2
  · exact estimate_credibility_from_url_bounds u
  · rw [generate_fallback_papers, List.mem_map] at hp
    obtain ⟨i, _, rfl⟩ := hp
    have hm : ((i % 2 : ℕ) : ℚ) ≤ 1 := by
      have : (i % 2 : ℕ) ≤ 1 := by omega
      exact_mod_cast this
    have hm0 : (0 : ℚ) ≤ ((i % 2 : ℕ) : ℚ) := by positivity
    have hi0 : (0 : ℤ) ≤ (i : ℤ) := Int.natCast_nonneg i
    refine ⟨⟨?_, ?_⟩, ?_⟩
    · show (1 : ℚ) ≤ 7.0 + ((i % 2 : ℕ) : ℚ)
      linarith
    · show (7.0 : ℚ) + ((i % 2 : ℕ) : ℚ) ≤ 10
      linarith
    · show (10 : ℤ) ≤ 50 + (i : ℤ) * 10
      have : (0 : ℤ) ≤ (i : ℤ) * 10 := mul_nonneg hi0 (by norm_num)
      linarith

/-- The first synthetic paper (index 0), exposed for the C7 witness. -/
def fallbackWitnessPaper : Paper :=
  (generate_fallback_papers "ai" 1).headD
    { id := 0, title := "", authors := [], venue := "", year := 0, citations := 0,
      credibility := 0, abstract := "", keywords := [], url := "", discovery_method := "" }

/-- Witness for the amended C7 at concrete members of each source. -/
theorem credibility_citations_witness :
    (1 ≤ pyRound1 (calculate_credibility "" "" "") ∧
      pyRound1 (calculate_credibility "" "" "") ≤ 10) ∧
    10 ≤ estimate_citations 5 2023 0 ∧
    (extract_paper_from_url zeroHash "https://x.com/a" "ai").citations = 0 ∧
    (1 ≤ fallbackWitnessPaper.credibility ∧ fallbackWitnessPaper.credibility ≤ 10) ∧
    10 ≤ fallbackWitnessPaper.citations := by
  have h := credibility_citations_bounds
  have hp : fallbackWitnessPaper ∈ generate_fallback_papers "ai" 1 := by
    rw [show generate_fallback_papers "ai" 1 = [fallbackWitnessPaper] from rfl]
    exact List.mem_singleton.mpr rfl
  exact ⟨h.1 "" "" "", h.2.1 5 2023 0, (h.2.2.1 zeroHash "https://x.com/a" "ai").2,
    (h.2.2.2 "ai" 1 fallbackWitnessPaper hp).1, (h.2.2.2 "ai" 1 fallbackWitnessPaper hp).2⟩

/-! ## C8 -/

/-- C8: with the heuristic connections in scope (the mapping step
succeeded), a failing relationship extractor yields exactly the
converted heuristic connection list as the edge set, in order, with
nothing else; a succeeding one yields its own edges followed by the
converted heuristic edges, with no cross-source deduplication. -/
theorem merged_edges_order (sp : List Paper) (mr : MappingResult) (gd : GraphData)
    (el : String) (hsp : sp ≠ []) :
    (discover_papers_with_mapping sp (.ok mr) (.error el)).map
        (fun r => r.graph_data.edges) = .ok (mr.paper_connections.map conn_to_edge) ∧
    (discover_papers_with_mapping sp (.ok mr) (.ok gd)).map
        (fun r => r.graph_data.edges) =
      .ok (gd.edges ++ mr.paper_connections.map conn_to_edge) := by
  obtain ⟨a, t, rfl⟩ : ∃ a t, sp = a :: t := by
    cases sp with
    | nil => exact absurd rfl hsp
    | cons a t => exact ⟨a, t, rfl⟩
  obtain ⟨mp, mc⟩ := mr
  cases mc with
  | nil => constructor <;> simp [discover_papers_with_mapping, Except.map]
  | cons c cs => constructor <;> simp [discover_papers_with_mapping, Except.map]

/-- External-shaped graph data used by the C8 witness. -/
def wGraphData : GraphData :=
  { nodes := ["n1"],
    edges := [{ source := "9", target := "8", relationship_type := "Related",
                strength := 3, description := "llm edge", shared_entities := [] }],
    entity_clusters := [] }

/-- Mapping result used by the C8 witness. -/
def wMappingResult : MappingResult :=
  { papers := [], paper_connections := [wConn] }

/-- Witness for C8 at a concrete mapping result and graph. -/
theorem merged_edges_witness :
    (discover_papers_with_mapping [fullPaper] (.ok wMappingResult) (.error "llm failed")).map
        (fun r => r.graph_data.edges) =
      .ok (wMappingResult.paper_connections.map conn_to_edge) ∧
    (discover_papers_with_mapping [fullPaper] (.ok wMappingResult) (.ok wGraphData)).map
        (fun r => r.graph_data.edges) =
      .ok (wGraphData.edges ++ wMappingResult.paper_connections.map conn_to_edge) :=
  merged_edges_order [fullPaper] wMappingResult wGraphData "llm failed" (List.cons_ne_nil _ _)

/-! ## C9 -/

/-- C9 counterexample: the heuristic pair (`fracPaperA`, `fracPaperB`)
yields the single connection `fracConn` with similarity `7/15`; its
converted edge strength is `int(similarity * 10) = 4` (truncation), while
rounding `14/3` to the nearest integer gives `5`. -/
theorem strength_truncates_not_rounds :
    generate_paper_connections [fracPaperA, fracPaperB] "t" = [fracConn] ∧
    (conn_to_edge fracConn).strength = 4 ∧
    round (fracConn.similarity * 10) = 5 := by
  refine ⟨fracPair_connections, ?_, ?_⟩
  · show pyInt ((7 : ℚ)/15 * 10) = 4
    rw [pyInt, if_pos (by norm_num)]
    rw [show (7 : ℚ)/15 * 10 = 14/3 by norm_num, Int.floor_eq_iff]
    norm_num
  · show round ((7 : ℚ)/15 * 10) = 5
    rw [round_eq]
    rw [show (7 : ℚ)/15 * 10 + 1/2 = 31/6 by norm_num, Int.floor_eq_iff]
    norm_num

/-- C9 amended: for every connection the builder emits, the converted
edge's strength is `⌊similarity * 10⌋` — truncation toward zero, which on
these nonnegative similarities is the floor, not round-to-nearest — and
the description is synthesised from the connection type. -/
theorem edge_strength_floor_and_description (papers : List Paper) (topic : String)
    (c : Connection) (hc : c ∈ generate_paper_connections papers topic) :
    (conn_to_edge c).strength = ⌊c.similarity * 10⌋ ∧
    (conn_to_edge c).description = "Papers connected through " ++ c.connection_type := by
  obtain ⟨p, q, _, _, hlt, _, _⟩ := mem_generate_paper_connections hc
  constructor
  · show pyInt (c.similarity * 10) = ⌊c.similarity * 10⌋
    have h0 : (0 : ℚ) ≤ c.similarity * 10 := by
      have : (0 : ℚ) < c.similarity := lt_trans (by norm_num) hlt
      positivity
    rw [pyInt, if_pos h0]
  · rfl

/-- Witness for the amended C9 at the emitted connection `fracConn`. -/
theorem edge_strength_floor_witness :
    (conn_to_edge fracConn).strength = ⌊fracConn.similarity * 10⌋ ∧
    (conn_to_edge fracConn).description =
      "Papers connected through " ++ fracConn.connection_type :=
  edge_strength_floor_and_description [fracPaperA, fracPaperB] "t" fracConn
    (by rw [fracPair_connections]; exact List.mem_singleton.mpr rfl)

/-! ## C10 -/

/-- C10 (code bug): when the search step returned papers and the
mapping-discovery call raises, the endpoint does not return a graph at
all — the local `paper_connections` is only assigned inside the failed
`try`, the step-4 handler reads it, and the second read raises an
uncaught `UnboundLocalError` — whether the LLM analysis succeeds or
fails. -/
theorem mapping_failure_unbound_local :
    discover_papers_with_mapping [fullPaper] (.error "mapping discovery failed")
        (.ok { nodes := [], edges := [], entity_clusters := [] }) =
      .error "UnboundLocalError: paper_connections" ∧
    discover_papers_with_mapping [fullPaper] (.error "mapping discovery failed")
        (.error "llm analysis failed") =
      .error "UnboundLocalError: paper_connections" :=
  ⟨rfl, rfl⟩

end ResearchMap
